import Mathlib

/-!
Shallow embedding of the `optionalize` repository's derive macro
(`derive_optionalize` in `optionalize-macro/src/lib.rs`).

The macro receives a parsed `DeriveInput` (struct name, data shape, per-field
attributes and types) and emits: a companion struct whose fields are rewritten
per an (is_ignored, is_already_optional) classification, a `to_active` method
mapping each field to a `sea_orm::ActiveValue` expression, and an
`OptionalizeTrait` impl binding `type Optional` to the companion struct.

We model the syntactic inputs (`syn::Type`, `syn::Meta`, `syn::Data`) at the
granularity the macro inspects them, and the emitted code as explicit data:
the generated field list, the per-field conversion expression shape, and the
trait binding. The runtime meaning of each emitted conversion expression is
given by small evaluator functions over `Option` values.
-/

namespace Optionalize

/-- A type expression, at the granularity `derive_optionalize` inspects it:
it only asks whether the type is a `syn::Type::Path` and, if so, what the
ident of the LAST path segment is (`type_path.path.segments.last()`).
All other shapes (tuples, references, slices, anything else) are opaque. -/
inductive Ty where
  | path (leadingColon : Bool) (segments : List String)
  | tuple
  | ref
  | slice
  | other
deriving DecidableEq

/-- A simple attribute path (`syn::Path` as used in attribute metadata). -/
structure AttrPath where
  leadingColon : Bool
  segments : List String
deriving DecidableEq

/-- `syn::Path::is_ident`: a path of length one, no leading colon, whose
single segment equals the given ident. -/
def AttrPath.is_ident (p : AttrPath) (s : String) : Bool :=
  !p.leadingColon && p.segments == [s]

/-- `syn::Meta`: an attribute's parsed meta item. `path` is a bare
`#[name]`, `list` is `#[name(...)]`, `nameValue` is `#[name = value]`.
The macro only ever matches on the `path` form. -/
inductive AttrMeta where
  | path (p : AttrPath)
  | list (p : AttrPath)
  | nameValue (p : AttrPath)
deriving DecidableEq

/-- Field or struct visibility as written in the source tokens:
`pub` or nothing (inherited/private). -/
inductive Visibility where
  | pub
  | inherited
deriving DecidableEq

/-- One field of the input struct: its visibility, its ident (absent for
tuple-struct fields), its attributes, and its declared type. -/
structure Field where
  vis : Visibility
  ident : Option String
  attrs : List AttrMeta
  ty : Ty
deriving DecidableEq

/-- `syn::Fields`: named fields, unnamed (tuple) fields, or a unit struct.
Iterating (`fields.into_iter()`) yields the fields in declaration order. -/
inductive Fields where
  | named (fs : List Field)
  | unnamed (fs : List Field)
  | unit
deriving DecidableEq

/-- `syn::Data`: the shape of the derive target. -/
inductive Data where
  | struct (fs : Fields)
  | enum
  | union
deriving DecidableEq

/-- `syn::DeriveInput`, restricted to what the macro reads: the ident and
the data shape. -/
structure DeriveInput where
  ident : String
  data : Data
deriving DecidableEq

/-- The fields iterated by the macro: `Fields::into_iter` in declaration
order; a unit struct yields none. -/
def fieldsOf : Fields → List Field
  | .named fs => fs
  | .unnamed fs => fs
  | .unit => []

/-- The macro's `is_optional` computation:
`type_path.path.segments.last().map(|f| f.ident == "Option").unwrap_or(false)`
guarded by `if let Type::Path(..)`. -/
def is_already_optional : Ty → Bool
  | .path _ segs => segs.getLast? == some "Option"
  | _ => false

/-- The macro's attribute loop: walk `field.attrs`, returning ignored = true
on the first attribute matching `Meta::Path(path) if
path.is_ident("optionalize_ignore")`; every other meta form falls through. -/
def is_ignored_attrs : List AttrMeta → Bool
  | [] => false
  | .path p :: rest =>
      if p.is_ident "optionalize_ignore" then true else is_ignored_attrs rest
  | .list _ :: rest => is_ignored_attrs rest
  | .nameValue _ :: rest => is_ignored_attrs rest

/-- The classified field triple `(field, is_ignored, is_optional)` produced
by the macro's first `map` over the fields. -/
def classifyField (f : Field) : Field × Bool × Bool :=
  (f, is_ignored_attrs f.attrs, is_already_optional f.ty)

/-- The type written in a generated field declaration: either the declared
type verbatim (`#field_type`) or wrapped (`Option<#field_type>`). -/
inductive GenTy where
  | asIs (t : Ty)
  | optionOf (t : Ty)
deriving DecidableEq

/-- A field declaration of the generated struct, as emitted by the
`optional_fields` quote: the emitted tokens are `#field_name: <type>` with
no visibility token, so `vis` records `inherited`. -/
structure GenField where
  vis : Visibility
  ident : Option String
  ty : GenTy
deriving DecidableEq

/-- The `optional_fields` closure: per classified field, the generated
field declaration. Arms in the macro's match order over
`(is_ignored, is_optional)`. -/
def optional_field : Field × Bool × Bool → GenField
  | (f, false, false) => ⟨Visibility.inherited, f.ident, GenTy.optionOf f.ty⟩
  | (f, false, true) => ⟨Visibility.inherited, f.ident, GenTy.asIs f.ty⟩
  | (f, true, false) => ⟨Visibility.inherited, f.ident, GenTy.asIs f.ty⟩
  | (f, true, true) => ⟨Visibility.inherited, f.ident, GenTy.asIs f.ty⟩

/-- The shape of the conversion expression emitted for one field inside
`to_active`: `Unchanged(self.f)`, or a match sending `Some(v)` to `Set(v)`
and `None` to `NotSet`, or a match sending `Some(v)` to `Set(Some(v))` and
`None` to `NotSet`. -/
inductive ConvExpr where
  | unchangedExpr
  | setOrNotSet
  | setSomeOrNotSet
deriving DecidableEq

/-- The `to_active_model_fields` closure: per classified field, the field
name and the conversion expression emitted for it. The macro matches
`(true, false)`, then `(false, false)`, then a catch-all `(_, _)` which we
spell out as its two remaining cases. -/
def to_active_model_field : Field × Bool × Bool → Option String × ConvExpr
  | (f, true, false) => (f.ident, ConvExpr.unchangedExpr)
  | (f, false, false) => (f.ident, ConvExpr.setOrNotSet)
  | (f, true, true) => (f.ident, ConvExpr.setSomeOrNotSet)
  | (f, false, true) => (f.ident, ConvExpr.setSomeOrNotSet)

/-- `sea_orm::ActiveValue`: the persistence layer's three-state update
value. -/
inductive ActiveValue (α : Type) where
  | set (v : α)
  | unchanged (v : α)
  | notSet
deriving DecidableEq

/-- Runtime meaning of the emitted `Unchanged(self.f)` expression: it takes
the raw field value (no presence inspection is even possible: the argument
is not an `Option`). -/
def evalUnchanged {α : Type} (v : α) : ActiveValue α :=
  ActiveValue.unchanged v

/-- Runtime meaning of the emitted
`match self.f \x7b Some(value) => Set(value), None => NotSet \x7d`. -/
def evalSetOrNotSet {α : Type} : Option α → ActiveValue α
  | some v => ActiveValue.set v
  | none => ActiveValue.notSet

/-- Runtime meaning of the emitted
`match self.f \x7b Some(value) => Set(Some(value)), None => NotSet \x7d`. -/
def evalSetSomeOrNotSet {α : Type} : Option α → ActiveValue (Option α)
  | some v => ActiveValue.set (some v)
  | none => ActiveValue.notSet

/-- The macro's error path: `syn::Error::new_spanned(input, msg)` rendered
as a compile error; the whole expansion is replaced by it, so no other
output accompanies an error. -/
inductive DeriveError where
  | unsupportedShape (msg : String)
deriving DecidableEq

/-- Everything `derive_optionalize` emits on success: the generated struct
(`pub struct <Name>Optional` with its ordered field declarations), the
ordered per-field conversion entries of `fn to_active`, and the
`impl OptionalizeTrait for <Name> \x7b type Optional = <Name>Optional; \x7d`
binding (`traitImplFor`, `assocOptional`). -/
structure MacroOutput where
  structVis : Visibility
  structName : String
  genFields : List GenField
  toActiveFields : List (Option String × ConvExpr)
  traitImplFor : String
  assocOptional : String
deriving DecidableEq

/-- The macro body `derive_optionalize`: name the output struct
`<ident>Optional`; if the data is not a struct, return the compile error
"Optionalize can only be used on structs"; otherwise classify every field
once and map the classified list independently through `optional_field`
and `to_active_model_field`, then emit the struct, the method and the
trait binding. -/
def derive_optionalize (input : DeriveInput) : Except DeriveError MacroOutput :=
  let struct_name := input.ident
  let optional_struct_name := struct_name ++ "Optional"
  match input.data with
  | Data.struct fs =>
      let fields := (fieldsOf fs).map classifyField
      Except.ok ⟨Visibility.pub, optional_struct_name,
        fields.map optional_field,
        fields.map to_active_model_field,
        struct_name, optional_struct_name⟩
  | Data.enum =>
      Except.error (DeriveError.unsupportedShape "Optionalize can only be used on structs")
  | Data.union =>
      Except.error (DeriveError.unsupportedShape "Optionalize can only be used on structs")

/-! ### Concrete example inputs (the spec's scenario struct) -/

/-- Example field `pub id: i32` of the documented `MyStruct`. -/
def exField_id : Field := ⟨Visibility.pub, some "id", [], Ty.path false ["i32"]⟩

/-- Example field `pub name: String`. -/
def exField_name : Field := ⟨Visibility.pub, some "name", [], Ty.path false ["String"]⟩

/-- Example field `pub description: Option<String>` (its type's last path
segment is `Option`). -/
def exField_description : Field :=
  ⟨Visibility.pub, some "description", [], Ty.path false ["Option"]⟩

/-- An ignored field that is already optional:
`#[optionalize_ignore] pub flag: Option<bool>`. -/
def exIgnoredOptField : Field :=
  ⟨Visibility.pub, some "flag", [AttrMeta.path ⟨false, ["optionalize_ignore"]⟩],
    Ty.path false ["Option"]⟩

/-- An ignored field that is not optional: `#[optionalize_ignore] pub id: i32`. -/
def exIgnoredRawField : Field :=
  ⟨Visibility.pub, some "id", [AttrMeta.path ⟨false, ["optionalize_ignore"]⟩],
    Ty.path false ["i32"]⟩

/-- The documented example derive target `MyStruct`. -/
def exInput : DeriveInput :=
  ⟨"MyStruct", Data.struct (Fields.named [exField_id, exField_name, exField_description])⟩

/-- The expansion the macro produces for `exInput`. -/
def exOut : MacroOutput :=
  ⟨Visibility.pub, "MyStruct" ++ "Optional",
    [⟨Visibility.inherited, some "id", GenTy.optionOf (Ty.path false ["i32"])⟩,
     ⟨Visibility.inherited, some "name", GenTy.optionOf (Ty.path false ["String"])⟩,
     ⟨Visibility.inherited, some "description", GenTy.asIs (Ty.path false ["Option"])⟩],
    [(some "id", ConvExpr.setOrNotSet),
     (some "name", ConvExpr.setOrNotSet),
     (some "description", ConvExpr.setSomeOrNotSet)],
    "MyStruct", "MyStruct" ++ "Optional"⟩

instance : DecidableEq (Except DeriveError MacroOutput) := fun a b =>
  match a, b with
  | Except.ok x, Except.ok y =>
      if h : x = y then isTrue (by rw [h]) else
        isFalse (fun hxy => h (Except.ok.inj hxy))
  | Except.error x, Except.error y =>
      if h : x = y then isTrue (by rw [h]) else
        isFalse (fun hxy => h (Except.error.inj hxy))
  | Except.ok _, Except.error _ => isFalse (fun hxy => Except.noConfusion hxy)
  | Except.error _, Except.ok _ => isFalse (fun hxy => Except.noConfusion hxy)

/-- A tuple-struct field: no ident. -/
def tupleField : Field := ⟨Visibility.inherited, none, [], Ty.path false ["i32"]⟩

/-- A tuple-struct derive target: `struct T(i32);`. -/
def tupleInput : DeriveInput := ⟨"T", Data.struct (Fields.unnamed [tupleField])⟩

/-- A field whose only attribute is named `optionalize_ignore` but carries
arguments (the `Meta::List` form `#[optionalize_ignore(...)]`). -/
def listAttrField : Field :=
  ⟨Visibility.pub, some "x", [AttrMeta.list ⟨false, ["optionalize_ignore"]⟩],
    Ty.path false ["i32"]⟩

/-- The first generated field of the example expansion. -/
def exGenId : GenField := ⟨Visibility.inherited, some "id", GenTy.optionOf (Ty.path false ["i32"])⟩

/-! ### Helper lemmas about the per-field generation functions -/

/-- The generated field for a classified field, characterized by the two
classification booleans. -/
theorem optional_field_classify (f : Field) :
    optional_field (classifyField f) =
      ⟨Visibility.inherited, f.ident,
        if is_ignored_attrs f.attrs || is_already_optional f.ty
        then GenTy.asIs f.ty else GenTy.optionOf f.ty⟩ := by
  cases hig : is_ignored_attrs f.attrs <;> cases hopt : is_already_optional f.ty <;>
    simp [classifyField, optional_field, hig, hopt]

/-- The conversion entry for a classified field, characterized by the two
classification booleans. -/
theorem to_active_model_field_classify (f : Field) :
    to_active_model_field (classifyField f) =
      (f.ident,
        if is_ignored_attrs f.attrs then
          (if is_already_optional f.ty then ConvExpr.setSomeOrNotSet
            else ConvExpr.unchangedExpr)
        else
          (if is_already_optional f.ty then ConvExpr.setSomeOrNotSet
            else ConvExpr.setOrNotSet)) := by
  cases hig : is_ignored_attrs f.attrs <;> cases hopt : is_already_optional f.ty <;>
    simp [classifyField, to_active_model_field, hig, hopt]

/-- Generated field declarations keep the source field's name. -/
theorem optional_field_ident (f : Field) :
    (optional_field (classifyField f)).ident = f.ident := by
  rw [optional_field_classify]

/-- Conversion entries keep the source field's name. -/
theorem to_active_model_field_ident (f : Field) :
    (to_active_model_field (classifyField f)).1 = f.ident := by
  rw [to_active_model_field_classify]

/-! ### Claim theorems -/

/-- Claim C1 (counterexample): a field that is both ignored and already
optional is NOT converted by an `Unchanged` pass-through: the macro's
catch-all conversion arm emits the `Set(Some(value))/NotSet` match for the
`(ignored, already-optional) = (true, true)` case. -/
theorem C1_counterexample :
    exIgnoredOptField.attrs = [AttrMeta.path ⟨false, ["optionalize_ignore"]⟩] ∧
    is_already_optional exIgnoredOptField.ty = true ∧
    (to_active_model_field (classifyField exIgnoredOptField)).2 ≠ ConvExpr.unchangedExpr := by
  refine ⟨rfl, rfl, ?_⟩
  decide

/-- Claim C1 (amended): for every field classified as both ignored and
already optional, the generated conversion applies the same rule as for a
non-ignored already-optional field: the emitted expression maps a present
value to `Set(Some(value))` and an absent value to `NotSet`; no `Unchanged`
pass-through is emitted. -/
theorem C1_ignored_optional_conversion (f : Field)
    (hig : is_ignored_attrs f.attrs = true)
    (hopt : is_already_optional f.ty = true) :
    (to_active_model_field (classifyField f)).2 = ConvExpr.setSomeOrNotSet ∧
    (∀ (α : Type) (v : α), evalSetSomeOrNotSet (some v) = ActiveValue.set (some v)) ∧
    (∀ (α : Type), evalSetSomeOrNotSet (none : Option α) = ActiveValue.notSet) := by
  refine ⟨?_, fun α v => rfl, fun α => rfl⟩
  simp [classifyField, to_active_model_field, hig, hopt]

/-- Claim C1 witness: the amended theorem applied to the concrete ignored
already-optional field. -/
theorem C1_ignored_optional_conversion_witness :
    is_ignored_attrs exIgnoredOptField.attrs = true ∧
    is_already_optional exIgnoredOptField.ty = true ∧
    (to_active_model_field (classifyField exIgnoredOptField)).2 = ConvExpr.setSomeOrNotSet :=
  ⟨by decide, by decide,
    (C1_ignored_optional_conversion exIgnoredOptField (by decide) (by decide)).1⟩

/-- Claim C2: for every field of a struct input, the generated struct's
field keeps the source name, and its type is the declared type unchanged
when the field is ignored or already optional, and `Option<declared type>`
otherwise; no other type rewriting (in particular no nested-counterpart
rewriting) occurs in any case. -/
theorem C2_generated_field_types (nm : String) (fs : Fields) (out : MacroOutput)
    (hok : derive_optionalize ⟨nm, Data.struct fs⟩ = Except.ok out) :
    out.genFields = (fieldsOf fs).map (fun f =>
      ⟨Visibility.inherited, f.ident,
        if is_ignored_attrs f.attrs || is_already_optional f.ty
        then GenTy.asIs f.ty else GenTy.optionOf f.ty⟩) := by
  simp only [derive_optionalize, Except.ok.injEq] at hok
  subst hok
  simp only [List.map_map]
  refine List.map_congr_left fun f _ => ?_
  simpa using optional_field_classify f

/-- Claim C2 witness: the characterization applied to the documented
example struct, evaluated on its three concrete fields. -/
theorem C2_generated_field_types_witness :
    derive_optionalize exInput = Except.ok exOut ∧
    exOut.genFields =
      [⟨Visibility.inherited, some "id", GenTy.optionOf (Ty.path false ["i32"])⟩,
       ⟨Visibility.inherited, some "name", GenTy.optionOf (Ty.path false ["String"])⟩,
       ⟨Visibility.inherited, some "description", GenTy.asIs (Ty.path false ["Option"])⟩] :=
  ⟨by decide,
    (C2_generated_field_types "MyStruct"
      (Fields.named [exField_id, exField_name, exField_description]) exOut
      (by decide)).trans (by decide)⟩

/-- Claim C3: for every non-ignored field the emitted conversion is the
`Set/NotSet` match (plain `Set(value)` when the declared type was not
optional, `Set(Some(value))` when it was), and those matches send a present
value to `Set` and an absent value to `NotSet`. -/
theorem C3_nonignored_conversion (f : Field)
    (hig : is_ignored_attrs f.attrs = false) :
    (to_active_model_field (classifyField f)).2 =
      (if is_already_optional f.ty then ConvExpr.setSomeOrNotSet
        else ConvExpr.setOrNotSet) ∧
    (∀ (α : Type) (v : α), evalSetOrNotSet (some v) = ActiveValue.set v) ∧
    (∀ (α : Type), evalSetOrNotSet (none : Option α) = ActiveValue.notSet) ∧
    (∀ (α : Type) (v : α), evalSetSomeOrNotSet (some v) = ActiveValue.set (some v)) ∧
    (∀ (α : Type), evalSetSomeOrNotSet (none : Option α) = ActiveValue.notSet) := by
  refine ⟨?_, fun α v => rfl, fun α => rfl, fun α v => rfl, fun α => rfl⟩
  cases hopt : is_already_optional f.ty <;>
    simp [classifyField, to_active_model_field, hig, hopt]

/-- Claim C3 witness: the rule evaluated on the concrete non-ignored
fields `id: i32` (not optional) and `description: Option<String>`. -/
theorem C3_nonignored_conversion_witness :
    is_ignored_attrs exField_id.attrs = false ∧
    (to_active_model_field (classifyField exField_id)).2 = ConvExpr.setOrNotSet ∧
    (to_active_model_field (classifyField exField_description)).2 = ConvExpr.setSomeOrNotSet :=
  ⟨by decide,
    ((C3_nonignored_conversion exField_id (by decide)).1).trans (by decide),
    ((C3_nonignored_conversion exField_description (by decide)).1).trans (by decide)⟩

/-- Claim C4 (code divergence): deriving on a tuple struct does NOT fail.
`Data::Struct` matches even when the fields are unnamed, so the macro emits
a full expansion whose field declaration carries no name (`ident = none`,
i.e. the tokens `: Option<i32>`) — syntactically invalid partial output is
emitted instead of the UnsupportedShape error, which is raised only for
enums and unions. -/
theorem C4_tuple_struct_not_rejected :
    derive_optionalize tupleInput =
      Except.ok ⟨Visibility.pub, "T" ++ "Optional",
        [⟨Visibility.inherited, none, GenTy.optionOf (Ty.path false ["i32"])⟩],
        [(none, ConvExpr.setOrNotSet)],
        "T", "T" ++ "Optional"⟩ := by
  decide

/-- Claim C5: for every field that is ignored and not already optional,
the emitted conversion is `Unchanged(self.field)`, applied to the raw
field value; its meaning takes the raw (non-optional) value directly and
cannot inspect presence or absence. -/
theorem C5_ignored_raw_conversion (f : Field)
    (hig : is_ignored_attrs f.attrs = true)
    (hopt : is_already_optional f.ty = false) :
    (to_active_model_field (classifyField f)).2 = ConvExpr.unchangedExpr ∧
    (∀ (α : Type) (v : α), evalUnchanged v = ActiveValue.unchanged v) := by
  refine ⟨?_, fun α v => rfl⟩
  simp [classifyField, to_active_model_field, hig, hopt]

/-- Claim C5 witness: the rule evaluated on the concrete ignored
non-optional field `#[optionalize_ignore] id: i32`. -/
theorem C5_ignored_raw_conversion_witness :
    is_ignored_attrs exIgnoredRawField.attrs = true ∧
    is_already_optional exIgnoredRawField.ty = false ∧
    (to_active_model_field (classifyField exIgnoredRawField)).2 = ConvExpr.unchangedExpr :=
  ⟨by decide, by decide,
    (C5_ignored_raw_conversion exIgnoredRawField (by decide) (by decide)).1⟩

/-- A type that is not a `syn::Type::Path` is never classified as already
optional. -/
theorem not_path_not_optional (t : Ty)
    (h : ∀ (lc : Bool) (segs : List String), t ≠ Ty.path lc segs) :
    is_already_optional t = false := by
  cases t with
  | path lc segs => exact absurd rfl (h lc segs)
  | tuple => rfl
  | ref => rfl
  | slice => rfl
  | other => rfl

/-- Claim C6: `is_already_optional` holds for a path type exactly when the
last path segment's ident is the string "Option"; every non-path type shape
is classified as not optional, and a non-ignored field of such a shape
falls into the conservative wrap-in-`Option` branch of the struct
synthesizer. (The classifier is a total function, so classification never
fails.) -/
theorem C6_optional_classification :
    (∀ (lc : Bool) (segs : List String),
      is_already_optional (Ty.path lc segs) = true ↔ segs.getLast? = some "Option") ∧
    (∀ t : Ty, (∀ (lc : Bool) (segs : List String), t ≠ Ty.path lc segs) →
      is_already_optional t = false) ∧
    (∀ f : Field, (∀ (lc : Bool) (segs : List String), f.ty ≠ Ty.path lc segs) →
      is_ignored_attrs f.attrs = false →
      (optional_field (classifyField f)).ty = GenTy.optionOf f.ty) := by
  refine ⟨?_, not_path_not_optional, ?_⟩
  · intro lc segs
    simp [is_already_optional]
  · intro f h hig
    have hopt : is_already_optional f.ty = false := not_path_not_optional f.ty h
    rw [optional_field_classify]
    simp [hig, hopt]

/-- Claim C6 witness: a qualified path ending in `Option` is classified
optional; a tuple type is not, and a field of tuple type gets the
wrap-in-`Option` output type. -/
theorem C6_optional_classification_witness :
    is_already_optional (Ty.path false ["std", "option", "Option"]) = true ∧
    is_already_optional Ty.tuple = false ∧
    (optional_field (classifyField ⟨Visibility.pub, some "t", [], Ty.tuple⟩)).ty =
      GenTy.optionOf Ty.tuple :=
  ⟨(C6_optional_classification.1 false ["std", "option", "Option"]).mpr rfl,
    C6_optional_classification.2.1 Ty.tuple (by intro lc segs h; exact Ty.noConfusion h),
    C6_optional_classification.2.2 ⟨Visibility.pub, some "t", [], Ty.tuple⟩
      (by intro lc segs h; exact Ty.noConfusion h) rfl⟩

/-- Claim C7 (counterexample): an attribute with the recognized name but in
list form (carrying arguments) does NOT mark the field ignored: the macro
only matches the bare `Meta::Path` form, so arguments ARE consulted in the
sense that their mere presence defeats recognition. -/
theorem C7_counterexample :
    listAttrField.attrs = [AttrMeta.list ⟨false, ["optionalize_ignore"]⟩] ∧
    (classifyField listAttrField).2.1 = false := by
  refine ⟨rfl, ?_⟩
  decide

/-- Claim C7 (amended): `is_ignored` is true iff the field carries an
attribute in bare-path form (no arguments, i.e. `Meta::Path`) whose path is
exactly the single unqualified identifier `optionalize_ignore`; attributes
named `optionalize_ignore` that carry arguments (list or name-value form)
are not recognized. -/
theorem C7_ignore_marker (attrs : List AttrMeta) :
    is_ignored_attrs attrs = true ↔
      ∃ p : AttrPath, AttrMeta.path p ∈ attrs ∧ p.is_ident "optionalize_ignore" = true := by
  induction attrs with
  | nil => simp [is_ignored_attrs]
  | cons a rest ih =>
      cases a with
      | path p =>
          cases hp : p.is_ident "optionalize_ignore" with
          | true =>
              simp only [is_ignored_attrs, hp, if_true, true_iff]
              exact ⟨p, List.mem_cons_self _ _, hp⟩
          | false =>
              simp only [is_ignored_attrs, hp, Bool.false_eq_true, if_false, ih,
                List.mem_cons]
              constructor
              · rintro ⟨q, hq, hqid⟩
                exact ⟨q, Or.inr hq, hqid⟩
              · rintro ⟨q, hq, hqid⟩
                cases hq with
                | inl h =>
                    injection h with h2
                    subst h2
                    rw [hp] at hqid
                    exact absurd hqid (by decide)
                | inr h => exact ⟨q, h, hqid⟩
      | list p =>
          simp only [is_ignored_attrs, ih, List.mem_cons]
          constructor
          · rintro ⟨q, hq, hqid⟩
            exact ⟨q, Or.inr hq, hqid⟩
          · rintro ⟨q, hq, hqid⟩
            cases hq with
            | inl h => exact AttrMeta.noConfusion h
            | inr h => exact ⟨q, h, hqid⟩
      | nameValue p =>
          simp only [is_ignored_attrs, ih, List.mem_cons]
          constructor
          · rintro ⟨q, hq, hqid⟩
            exact ⟨q, Or.inr hq, hqid⟩
          · rintro ⟨q, hq, hqid⟩
            cases hq with
            | inl h => exact AttrMeta.noConfusion h
            | inr h => exact ⟨q, h, hqid⟩

/-- Claim C7 witness: a bare `#[optionalize_ignore]` attribute is
recognized as the ignore marker. -/
theorem C7_ignore_marker_witness :
    is_ignored_attrs [AttrMeta.path ⟨false, ["optionalize_ignore"]⟩] = true :=
  (C7_ignore_marker [AttrMeta.path ⟨false, ["optionalize_ignore"]⟩]).mpr
    ⟨⟨false, ["optionalize_ignore"]⟩, List.mem_cons_self _ _, by decide⟩

/-- Claim C8: for every struct input, the generated struct has exactly one
field per source field, the generated field names are the source field
names in source declaration order, and the conversion method's entries are
in the same order. -/
theorem C8_field_order (nm : String) (fs : Fields) (out : MacroOutput)
    (hok : derive_optionalize ⟨nm, Data.struct fs⟩ = Except.ok out) :
    out.genFields.map GenField.ident = (fieldsOf fs).map Field.ident ∧
    out.toActiveFields.map Prod.fst = (fieldsOf fs).map Field.ident ∧
    out.genFields.length = (fieldsOf fs).length ∧
    out.toActiveFields.length = (fieldsOf fs).length := by
  simp only [derive_optionalize, Except.ok.injEq] at hok
  subst hok
  refine ⟨?_, ?_, by simp, by simp⟩
  · simp only [List.map_map]
    exact List.map_congr_left fun f _ => optional_field_ident f
  · simp only [List.map_map]
    exact List.map_congr_left fun f _ => to_active_model_field_ident f

/-- Claim C8 witness: field names and order of the expansion of the
documented example struct. -/
theorem C8_field_order_witness :
    derive_optionalize exInput = Except.ok exOut ∧
    exOut.genFields.map GenField.ident = [some "id", some "name", some "description"] ∧
    exOut.toActiveFields.map Prod.fst = [some "id", some "name", some "description"] :=
  ⟨by decide,
    ((C8_field_order "MyStruct"
      (Fields.named [exField_id, exField_name, exField_description]) exOut
      (by decide)).1).trans (by decide),
    ((C8_field_order "MyStruct"
      (Fields.named [exField_id, exField_name, exField_description]) exOut
      (by decide)).2.1).trans (by decide)⟩

/-- Claim C9: for every struct input, the generated struct's name is the
source name with the fixed suffix "Optional" appended, and the emitted
trait impl binds the source struct's associated `Optional` type to exactly
that generated struct. -/
theorem C9_name_and_binding (nm : String) (fs : Fields) (out : MacroOutput)
    (hok : derive_optionalize ⟨nm, Data.struct fs⟩ = Except.ok out) :
    out.structName = nm ++ "Optional" ∧
    out.traitImplFor = nm ∧
    out.assocOptional = out.structName := by
  simp only [derive_optionalize, Except.ok.injEq] at hok
  subst hok
  exact ⟨rfl, rfl, rfl⟩

/-- Claim C9 witness: the naming and trait binding of the expansion of the
documented example struct. -/
theorem C9_name_and_binding_witness :
    derive_optionalize exInput = Except.ok exOut ∧
    exOut.structName = "MyStruct" ++ "Optional" ∧
    exOut.traitImplFor = "MyStruct" ∧
    exOut.assocOptional = exOut.structName :=
  ⟨by decide,
    C9_name_and_binding "MyStruct"
      (Fields.named [exField_id, exField_name, exField_description]) exOut (by decide)⟩

/-- Claim C10: for every struct input, the generated struct itself is
declared `pub`, while every generated field declaration carries no
visibility token (the source field's visibility, `pub` or not, is
dropped). -/
theorem C10_visibility_dropped (nm : String) (fs : Fields) (out : MacroOutput)
    (hok : derive_optionalize ⟨nm, Data.struct fs⟩ = Except.ok out) :
    out.structVis = Visibility.pub ∧
    ∀ g ∈ out.genFields, g.vis = Visibility.inherited := by
  simp only [derive_optionalize, Except.ok.injEq] at hok
  subst hok
  refine ⟨rfl, ?_⟩
  intro g hg
  simp only [List.map_map, List.mem_map, Function.comp] at hg
  obtain ⟨f, _, hfg⟩ := hg
  rw [← hfg, optional_field_classify]

/-- Claim C10 witness: in the example expansion (whose source fields are
all `pub`), the generated struct is `pub` and the generated `id` field
carries inherited (private) visibility. -/
theorem C10_visibility_dropped_witness :
    derive_optionalize exInput = Except.ok exOut ∧
    exField_id.vis = Visibility.pub ∧
    exOut.structVis = Visibility.pub ∧
    exGenId.vis = Visibility.inherited :=
  ⟨by decide, rfl,
    (C10_visibility_dropped "MyStruct"
      (Fields.named [exField_id, exField_name, exField_description]) exOut (by decide)).1,
    (C10_visibility_dropped "MyStruct"
      (Fields.named [exField_id, exField_name, exField_description]) exOut (by decide)).2
      exGenId (by decide)⟩

end Optionalize
